import Mathlib

set_option linter.unusedSectionVars false

/-!
Verification of the Qurderer core: the Subscribeable/State observable cell
(src/Qurderer/stores/Subscribeable.py, src/Qurderer/stores/useState.py),
the screen Navigator (src/Qurderer/modules/Window.py,
src/Qurderer/modules/MainWindow.py), the window manager
(src/Qurderer/modules/MainWindow.py) and the session storage
(src/Qurderer/modules/useSessionStorage.py), shallowly embedded in Lean.

`V` is the type of stored values, `L` the type of listener (callback)
identities; both carry decidable equality, mirroring Python value equality
(`!=`) and identity-based membership of callbacks in a list.
-/

section ObservableCell

variable {V L : Type} [DecidableEq V] [DecidableEq L]

/-- An observable cell: `Subscribeable.__init__` stores `_value` and the
ordered list `_callbacks` (`self._value = initialValue;
self._callbacks = []`).  `State` in useState.py has the identical fields
and methods, so one embedding covers both classes. -/
structure Cell (V L : Type) where
  value : V
  callbacks : List L
  deriving DecidableEq, Repr

/-- `Subscribeable.subscribe` / `State.subscribe`:
`if callback not in self._callbacks: self._callbacks.append(callback)`. -/
def Cell.subscribe (c : Cell V L) (callback : L) : Cell V L :=
  if callback ∈ c.callbacks then c
  else { c with callbacks := c.callbacks ++ [callback] }

/-- `Subscribeable.unsubscribe` / `State.unsubscribe`:
`if callback in self._callbacks: self._callbacks.remove(callback)`
(Python `list.remove` deletes the first occurrence). -/
def Cell.unsubscribe (c : Cell V L) (callback : L) : Cell V L :=
  if callback ∈ c.callbacks then { c with callbacks := c.callbacks.erase callback }
  else c

/-- Behaviour oracle for pure observer callbacks: invoking listener `l`
with value `v` either returns (`Except.ok`) or raises an exception
carrying message `e` (`Except.error e`).  Listeners in this model do not
mutate the cell; structural mutation during notification is modelled
separately by `notifyLive` below. -/
def Beh (V L : Type) : Type := L → V → Except String Unit

/-- The loop body of `_notify_subscribers`:
`for callback in self._callbacks: try: callback(self._value)
except Exception as e: print(f"Error in subscriber callback: {e}")`.
Returns the trace of performed invocations (listener, argument) in order,
together with the printed error log.  The function is total: a raising
listener adds a log line and the loop continues, exactly as the
`try/except` does. -/
def notifyLoop (beh : Beh V L) (v : V) : List L → List (L × V) × List String
  | [] => ([], [])
  | l :: ls =>
    let rest := notifyLoop beh v ls
    match beh l v with
    | Except.ok _ => ((l, v) :: rest.1, rest.2)
    | Except.error e => ((l, v) :: rest.1, ("Error in subscriber callback: " ++ e) :: rest.2)

/-- `Subscribeable.value` setter / `State.set`:
`if newValue != self._value: self._value = newValue;
self._notify_subscribers()`.  Returns the updated cell, the invocation
trace and the error log; a no-change call performs no notification. -/
def Cell.set (beh : Beh V L) (c : Cell V L) (newValue : V) :
    Cell V L × List (L × V) × List String :=
  if newValue ≠ c.value then
    let c2 : Cell V L := { c with value := newValue }
    let r := notifyLoop beh newValue c2.callbacks
    (c2, r.1, r.2)
  else (c, [], [])

omit [DecidableEq V] [DecidableEq L] in
theorem notifyLoop_trace (beh : Beh V L) (v : V) (ls : List L) :
    (notifyLoop beh v ls).1 = ls.map (fun l => (l, v)) := by
  induction ls with
  | nil => rfl
  | cons l ls ih =>
    simp only [notifyLoop, List.map]
    cases beh l v <;> simp [ih]

/-- C1: `set(v)` on a cell whose stored value equals `v` changes nothing and
invokes no listener; `set(v)` on a cell whose stored value differs replaces
the value with `v`, keeps the listener list unchanged, and invokes every
registered listener exactly once, in subscription order, with argument `v`
(the trace is exactly the listener list paired with `v`). -/
theorem set_value_change_notification (beh : Beh V L) (c : Cell V L) (v : V) :
    (v = c.value → Cell.set beh c v = (c, [], [])) ∧
    (v ≠ c.value →
      (Cell.set beh c v).1 = { c with value := v } ∧
      (Cell.set beh c v).2.1 = c.callbacks.map (fun l => (l, v))) := by
  constructor
  · intro h
    simp [Cell.set, h]
  · intro h
    simp [Cell.set, h, notifyLoop_trace]

/-- Witness for C1 at a concrete input: cell value `0`, listeners `[1, 2]`,
`set 5` stores `5` and invokes `1` then `2`, each with `5`. -/
theorem set_value_change_notification_witness :
    ((5 : Nat) ≠ (Cell.mk 0 [1, 2] : Cell Nat Nat).value) ∧
    (Cell.set (fun _ _ => Except.ok ()) (Cell.mk 0 [1, 2]) 5).1 = Cell.mk 5 [1, 2] ∧
    (Cell.set (fun _ _ => Except.ok ()) (Cell.mk 0 [1, 2]) 5).2.1 = [(1, 5), (2, 5)] := by
  refine ⟨by decide, ?_⟩
  have h := (set_value_change_notification (fun _ _ => Except.ok ())
    (Cell.mk 0 [1, 2]) 5).2 (by decide)
  exact ⟨h.1, by rw [h.2]; rfl⟩

theorem notifyLoop_log_mem (beh : Beh V L) (v : V) (ls : List L) (l : L) (e : String)
    (hl : l ∈ ls) (he : beh l v = Except.error e) :
    ("Error in subscriber callback: " ++ e) ∈ (notifyLoop beh v ls).2 := by
  induction ls with
  | nil => cases hl
  | cons a as ih =>
    simp only [notifyLoop]
    rcases List.mem_cons.mp hl with h | h
    · subst h
      rw [he]
      exact List.mem_cons_self _ _
    · cases hb : beh a v <;> simp only [] <;>
        first
          | exact ih h
          | exact List.mem_cons_of_mem _ (ih h)

/-- C3: when the listener list is `pre ++ li :: post` and listener `li`
raises message `e` during the notification pass of `set v` (with `v`
unequal to the stored value), the cell still ends holding `v`, every
listener — including each member of `post`, after the failure — is
invoked with `v` exactly as if none had raised, and the exception is
caught and logged (`set` is a total function here: nothing propagates to
its caller). -/
theorem set_listener_exception_isolated (beh : Beh V L) (c : Cell V L) (v : V)
    (pre post : List L) (li : L) (e : String)
    (hcb : c.callbacks = pre ++ li :: post) (hv : v ≠ c.value)
    (he : beh li v = Except.error e) :
    (Cell.set beh c v).1.value = v ∧
    (Cell.set beh c v).2.1 = c.callbacks.map (fun l => (l, v)) ∧
    ("Error in subscriber callback: " ++ e) ∈ (Cell.set beh c v).2.2 := by
  have hmem : li ∈ c.callbacks := by
    rw [hcb]
    exact List.mem_append_right _ (List.mem_cons_self _ _)
  refine ⟨?_, ?_, ?_⟩
  · simp [Cell.set, hv]
  · simp [Cell.set, hv, notifyLoop_trace]
  · simp only [Cell.set, if_pos hv]
    exact notifyLoop_log_mem beh v c.callbacks li e hmem he

/-- Witness for C3: listeners `[1, 2, 3]`, listener `2` raises `"boom"`:
the cell stores `7`, all three listeners are invoked with `7`, and the
error is logged. -/
theorem set_listener_exception_isolated_witness :
    ((Cell.mk 0 [1, 2, 3] : Cell Nat Nat).callbacks = [1] ++ 2 :: [3]) ∧
    ((7 : Nat) ≠ (Cell.mk 0 [1, 2, 3] : Cell Nat Nat).value) ∧
    (Cell.set (fun l _ => if l = 2 then Except.error "boom" else Except.ok ())
      (Cell.mk 0 [1, 2, 3]) 7).1.value = 7 ∧
    (Cell.set (fun l _ => if l = 2 then Except.error "boom" else Except.ok ())
      (Cell.mk 0 [1, 2, 3]) 7).2.1 = [(1, 7), (2, 7), (3, 7)] ∧
    ("Error in subscriber callback: " ++ "boom") ∈
      (Cell.set (fun l _ => if l = 2 then Except.error "boom" else Except.ok ())
        (Cell.mk 0 [1, 2, 3]) 7).2.2 := by
  have h := set_listener_exception_isolated
    (fun l _ => if l = 2 then Except.error "boom" else Except.ok ())
    (Cell.mk 0 [1, 2, 3]) 7 [1] [3] 2 "boom" (by decide) (by decide) (by rfl)
  exact ⟨by decide, by decide, h.1, by rw [h.2.1]; rfl, h.2.2⟩

theorem count_map_pair (v : V) (f : L) (ls : List L) :
    (ls.map (fun l => (l, v))).count (f, v) = ls.count f := by
  induction ls with
  | nil => rfl
  | cons a as ih =>
    by_cases h : a = f
    · subst h
      simp [List.count_cons, ih]
    · have h2 : ¬((a, v) = (f, v)) := by
        intro hc
        exact h (congrArg Prod.fst hc)
      simp [List.count_cons, ih, h, h2]

/-- C7: subscribing the same callback `f` twice leaves the listener list in
the same state as subscribing it once; starting from a cell in which `f`
appears at most once, after the double subscription `f` appears exactly
once, and a value change then invokes `f` exactly once (the invocation
`(f, v)` appears once in the trace). -/
theorem subscribe_idempotent (beh : Beh V L) (c : Cell V L) (f : L) (v : V)
    (hcount : c.callbacks.count f ≤ 1) (hv : v ≠ c.value) :
    (c.subscribe f).subscribe f = c.subscribe f ∧
    ((c.subscribe f).subscribe f).callbacks.count f = 1 ∧
    (Cell.set beh ((c.subscribe f).subscribe f) v).2.1.count (f, v) = 1 := by
  have hmem : f ∈ (c.subscribe f).callbacks := by
    by_cases h : f ∈ c.callbacks
    · simp [Cell.subscribe, h]
    · simp [Cell.subscribe, h]
  have sub_of_mem : ∀ d : Cell V L, f ∈ d.callbacks → d.subscribe f = d := by
    intro d h
    simp [Cell.subscribe, h]
  have hidem : (c.subscribe f).subscribe f = c.subscribe f :=
    sub_of_mem (c.subscribe f) hmem
  have hcount1 : (c.subscribe f).callbacks.count f = 1 := by
    by_cases h : f ∈ c.callbacks
    · have h1 : 0 < c.callbacks.count f := List.count_pos_iff.mpr h
      simp [Cell.subscribe, h]
      omega
    · have h0 : c.callbacks.count f = 0 := List.count_eq_zero.mpr h
      simp [Cell.subscribe, h, List.count_append, h0]
  have hval : v ≠ ((c.subscribe f).subscribe f).value := by
    rw [hidem]
    by_cases h : f ∈ c.callbacks <;> simpa [Cell.subscribe, h] using hv
  refine ⟨hidem, by rw [hidem]; exact hcount1, ?_⟩
  have htr : (Cell.set beh ((c.subscribe f).subscribe f) v).2.1
      = ((c.subscribe f).subscribe f).callbacks.map (fun l => (l, v)) := by
    simp [Cell.set, hval, notifyLoop_trace]
  rw [htr, count_map_pair, hidem, hcount1]

/-- Witness for C7: cell `⟨0, [9]⟩`, subscribing `5` twice yields listeners
`[9, 5]` once, and `set 3` invokes `5` exactly once. -/
theorem subscribe_idempotent_witness :
    ((Cell.mk 0 [9] : Cell Nat Nat).callbacks.count 5 ≤ 1) ∧
    ((3 : Nat) ≠ (Cell.mk 0 [9] : Cell Nat Nat).value) ∧
    ((Cell.mk 0 [9] : Cell Nat Nat).subscribe 5).subscribe 5 =
      (Cell.mk 0 [9] : Cell Nat Nat).subscribe 5 ∧
    (((Cell.mk 0 [9] : Cell Nat Nat).subscribe 5).subscribe 5).callbacks.count 5 = 1 ∧
    (Cell.set (fun _ _ => Except.ok ())
      (((Cell.mk 0 [9] : Cell Nat Nat).subscribe 5).subscribe 5) 3).2.1.count (5, 3) = 1 := by
  have h := subscribe_idempotent (fun _ _ => Except.ok ())
    (Cell.mk 0 [9]) 5 3 (by decide) (by decide)
  exact ⟨by decide, by decide, h.1, h.2.1, h.2.2⟩

end ObservableCell

section LiveIteration

variable {L : Type} [DecidableEq L]

/--
The notification pass in the source iterates the LIVE callback list:
`for callback in self._callbacks: ...` — no copy is taken.  A CPython list
iterator keeps a cursor index `i`; each step checks `i < len(list)`,
yields `list[i]` and increments `i`, so structural changes made by a
callback (via `subscribe`/`unsubscribe` on the same cell) are visible to
the remaining iteration.  `step l cbs` gives the callback list after
listener `l` runs with current list `cbs` (identity for listeners that do
not touch the subscription list; `cbs.erase l` for one that unsubscribes
itself).  `fuel` bounds the number of loop steps so the embedding is
total; any `fuel ≥` the number of steps the Python loop performs gives
the Python result.  Returns the trace of invoked listeners (in order)
and the final callback list.
-/
def notifyLive (step : L → List L → List L) :
    Nat → Nat → List L → List L × List L
  | 0, _, cbs => ([], cbs)
  | Nat.succ fuel, i, cbs =>
    if h : i < cbs.length then
      let l := cbs.get ⟨i, h⟩
      let cbs2 := step l cbs
      let rest := notifyLive step fuel (i + 1) cbs2
      (l :: rest.1, rest.2)
    else ([], cbs)

/-- Counterexample to C2: cell listeners `[1, 2]`; listener `1`
unsubscribes itself during its own invocation (`mut 1 cbs = cbs.erase 1`).
The live iteration invokes only listener `1`: after the removal the cursor
(now `1`) is no longer below the list length (now `1`), so listener `2`
of the current pass is skipped — no snapshot is taken.  (Fuel `4` exceeds
the two steps the loop could at most perform.) -/
theorem notify_no_snapshot_counterexample :
    (notifyLive (fun l cbs => if l = 1 then cbs.erase 1 else cbs) 4 0 [1, 2]).1
      = [1] ∧
    (2 : Nat) ∉
      (notifyLive (fun l cbs => if l = 1 then cbs.erase 1 else cbs) 4 0 [1, 2]).1 := by
  decide

theorem notifyLive_no_mut (step : L → List L → List L)
    (hstep : ∀ l cbs, step l cbs = cbs) :
    ∀ (fuel i : Nat) (cbs : List L), cbs.length - i ≤ fuel →
      (notifyLive step fuel i cbs).1 = cbs.drop i ∧
      (notifyLive step fuel i cbs).2 = cbs := by
  intro fuel
  induction fuel with
  | zero =>
    intro i cbs hle
    have : cbs.length ≤ i := by omega
    simp [notifyLive, List.drop_eq_nil_of_le this]
  | succ fuel ih =>
    intro i cbs hle
    by_cases h : i < cbs.length
    · simp only [notifyLive, dif_pos h, hstep]
      have hrest := ih (i + 1) cbs (by omega)
      refine ⟨?_, hrest.2⟩
      rw [hrest.1, List.drop_eq_getElem_cons h]
      rfl
    · simp [notifyLive, dif_neg h, List.drop_eq_nil_of_le (by omega : cbs.length ≤ i)]

/-- C2 amended: the notification pass iterates the live listener list with
a cursor, not a snapshot.  The iteration itself never raises (`notifyLive`
is total), and when no listener structurally modifies the list during the
pass, every listener is invoked exactly once in subscription order and the
list is unchanged; but a listener that unsubscribes during its own
invocation can make the pass skip a later listener (shown above on the
concrete two-listener input). -/
theorem notify_live_list_no_mut_complete (step : L → List L → List L)
    (hstep : ∀ l cbs, step l cbs = cbs) (cbs : List L) (fuel : Nat)
    (hfuel : cbs.length ≤ fuel) :
    (notifyLive step fuel 0 cbs).1 = cbs ∧ (notifyLive step fuel 0 cbs).2 = cbs := by
  have h := notifyLive_no_mut step hstep fuel 0 cbs (by omega)
  simpa using h

/-- Witness for the amended C2: three listeners, none mutating the list:
each is invoked exactly once in order. -/
theorem notify_live_list_no_mut_complete_witness :
    (∀ l cbs, (fun (_ : Nat) (c : List Nat) => c) l cbs = cbs) ∧
    ([1, 2, 3] : List Nat).length ≤ 5 ∧
    (notifyLive (fun (_ : Nat) (c : List Nat) => c) 5 0 [1, 2, 3]).1 = [1, 2, 3] := by
  refine ⟨fun _ _ => rfl, by decide, ?_⟩
  exact (notify_live_list_no_mut_complete (fun _ c => c) (fun _ _ => rfl)
    [1, 2, 3] 5 (by decide)).1

end LiveIteration

section Navigator

/-- Navigation state installed by the `Window` / `MainWindow` decorators:
`screens` holds the names registered in the `self.screens` dict,
`current` the widget shown by `stackedScreens` (`currentWidget()`, `None`
before any screen is shown), `history` the `self.screenHistory` Python
list whose last element is the stack top (`append` pushes at the end,
`pop()` removes from the end).  Screens are identified by their unique
registered name. -/
structure Navigator where
  screens : List String
  current : Option String
  history : List String
  deriving DecidableEq, Repr

/-- `setScreen(name)` from Window.py lines 109-133 (MainWindow.py lines
107-125 performs the same steps): if `name` is registered, the presently
shown screen, when one exists, is appended to `screenHistory`, then the
named screen becomes current; an unregistered name raises.
`pushCurrent` is the push step `currentScreen = stackedScreens.currentWidget();
if currentScreen: screenHistory.append(currentScreen)`. -/
def Navigator.pushCurrent (nav : Navigator) : List String :=
  match nav.current with
  | some c => nav.history ++ [c]
  | none => nav.history

/-- The registered-name dispatch of `setScreen(name)` around
`pushCurrent`; see the comment there. -/
def Navigator.setScreen (nav : Navigator) (name : String) : Except String Navigator :=
  if name ∈ nav.screens then
    Except.ok { nav with history := nav.pushCurrent, current := some name }
  else Except.error ("The screen window does not exist " ++ name ++ ".")

/-- `goBack()` from Window.py lines 135-141 and MainWindow.py lines
206-212: `if self.screenHistory: previousScreen =
self.screenHistory.pop(); self.stackedScreens.setCurrentWidget(previousScreen)`.
The popped entry becomes current; the screen being left is NOT pushed;
an empty history leaves the state untouched and raises nothing (the
function is total). -/
def Navigator.goBack (nav : Navigator) : Navigator :=
  match nav.history.getLast? with
  | some prev => { nav with history := nav.history.dropLast, current := some prev }
  | none => nav

/-- C4: with screens `a` and `b` registered, from any starting state the
sequence `setScreen a; setScreen b; goBack()` succeeds and ends with `a`
active: `setScreen b` pushed `a` onto history and `goBack` popped it
without pushing `b`.  Moreover the final history equals the history as it
stood right after `setScreen a`. -/
theorem setScreen_setScreen_goBack (nav : Navigator) (a b : String)
    (ha : a ∈ nav.screens) (hb : b ∈ nav.screens) :
    ∃ n1 n2, nav.setScreen a = Except.ok n1 ∧ n1.setScreen b = Except.ok n2 ∧
      (n2.goBack).current = some a ∧ (n2.goBack).history = n1.history := by
  refine ⟨{ nav with history := nav.pushCurrent, current := some a },
    { nav with history := nav.pushCurrent ++ [a], current := some b },
    ?_, ?_, ?_, ?_⟩
  · simp [Navigator.setScreen, ha]
  · simp [Navigator.setScreen, hb, Navigator.pushCurrent]
  · simp [Navigator.goBack]
  · simp [Navigator.goBack]

/-- Witness for C4: screens `["a", "b"]`, no current screen, empty
history. -/
theorem setScreen_setScreen_goBack_witness :
    ("a" ∈ (Navigator.mk ["a", "b"] none []).screens) ∧
    ("b" ∈ (Navigator.mk ["a", "b"] none []).screens) ∧
    ∃ n1 n2, (Navigator.mk ["a", "b"] none []).setScreen "a" = Except.ok n1 ∧
      n1.setScreen "b" = Except.ok n2 ∧
      (n2.goBack).current = some "a" ∧ (n2.goBack).history = n1.history := by
  refine ⟨by decide, by decide, ?_⟩
  exact setScreen_setScreen_goBack (Navigator.mk ["a", "b"] none []) "a" "b"
    (by decide) (by decide)

/-- C8: `goBack()` on an empty history stack is a no-op: the navigator —
current screen and (still empty) history included — is returned unchanged,
and no error can be raised (`goBack` is total and has no error outcome). -/
theorem goBack_empty_history_noop (nav : Navigator) (h : nav.history = []) :
    nav.goBack = nav := by
  simp [Navigator.goBack, h]

/-- Witness for C8: a navigator showing `"a"` with empty history. -/
theorem goBack_empty_history_noop_witness :
    ((Navigator.mk ["a"] (some "a") []).history = []) ∧
    (Navigator.mk ["a"] (some "a") []).goBack = Navigator.mk ["a"] (some "a") [] :=
  ⟨rfl, goBack_empty_history_noop (Navigator.mk ["a"] (some "a") []) rfl⟩

end Navigator

section WindowManager

/-- A window object as `createWindow` (MainWindow.py lines 127-164) sees
it through `getattr(window, attr, None)`: each required attribute is
either absent (`none`, getattr default) or present with a value.  Python
truthiness of the fetched attribute drives the checks (`if not geometry`),
so an empty list / empty string present on the object behaves like an
absent attribute. -/
structure WindowDesc where
  windowGeometry : Option (List Int)
  title : Option String
  name : Option String
  deriving DecidableEq, Repr

/-- Python falsiness of `getattr(w, attr, None)` for the list-valued
`windowGeometry`: `None` and `[]` are falsy. -/
def falsyGeom : Option (List Int) → Bool
  | none => true
  | some g => g.isEmpty

/-- Python falsiness of `getattr(w, attr, None)` for the string-valued
`title` / `name`: `None` and `""` are falsy. -/
def falsyStr : Option String → Bool
  | none => true
  | some s => s.isEmpty

/-- The `self.windows` dict of open windows, as an insertion-ordered
association list; `dict.get(name)` returns the first (only) binding.  A
window object (`QMainWindow` instance) is always truthy, so
`not self.windows.get(name)` holds exactly when `name` is unbound. -/
def lookupWindow : List (String × WindowDesc) → String → Option WindowDesc
  | [], _ => none
  | (k, v) :: rest, n => if k = n then some v else lookupWindow rest n

/-- `createWindow(window)` (MainWindow.py lines 127-164): fetches
`windowGeometry`, `title`, `name` with `getattr(..., None)` and raises on
a falsy one; then, if `self.windows.get(name)` is falsy, registers the
window under `name` (and shows it); otherwise prints
`Window {name} is already exist.` and leaves the registry untouched.
Returns the registry after the call together with the optional printed
duplicate notice. -/
def createWindow (ws : List (String × WindowDesc)) (w : WindowDesc) :
    Except String (List (String × WindowDesc) × Option String) :=
  if falsyGeom w.windowGeometry then
    Except.error "does not have a valid <windowGeometry>."
  else if falsyStr w.title then
    Except.error "does not have a valid <title>."
  else if falsyStr w.name then
    Except.error "does not have a valid <name>."
  else
    let name := w.name.getD ""
    match lookupWindow ws name with
    | some _ => Except.ok (ws, some ("Window " ++ name ++ " is already exist."))
    | none => Except.ok (ws ++ [(name, w)], none)

/-- Number of registry entries bound to `n`. -/
def countName (ws : List (String × WindowDesc)) (n : String) : Nat :=
  (ws.filter (fun p => p.1 = n)).length

theorem lookupWindow_append_self (ws : List (String × WindowDesc)) (n : String)
    (w : WindowDesc) (h : lookupWindow ws n = none) :
    lookupWindow (ws ++ [(n, w)]) n = some w := by
  induction ws with
  | nil => simp [lookupWindow]
  | cons p rest ih =>
    rw [show p = (p.1, p.2) from rfl] at h ⊢
    by_cases hk : p.1 = n
    · simp [lookupWindow, hk] at h
    · simp only [List.cons_append, lookupWindow, if_neg hk] at h ⊢
      exact ih h

theorem lookupWindow_none_count (ws : List (String × WindowDesc)) (n : String)
    (h : lookupWindow ws n = none) : countName ws n = 0 := by
  induction ws with
  | nil => rfl
  | cons p rest ih =>
    by_cases hk : p.1 = n
    · exfalso
      rw [show p = (p.1, p.2) from rfl] at h
      simp [lookupWindow, hk] at h
    · rw [show p = (p.1, p.2) from rfl] at h
      simp only [lookupWindow, if_neg hk] at h
      simp [countName, List.filter, hk]
      have := ih h
      simpa [countName] using this

/-- C5: (a) a window whose `geometry`, `title` or `name` attribute is
missing makes `createWindow` raise; (b) starting from a registry with no
window named `n`, a first `createWindow` with a valid window named `n`
registers it (no notice), and a second `createWindow` with any valid
window also named `n` leaves the registry — exactly one entry under `n` —
unchanged, raises nothing (`Except.ok`), and reports the duplicate
notice. -/
theorem createWindow_validation_and_duplicate :
    (∀ (ws : List (String × WindowDesc)) (w : WindowDesc),
      w.windowGeometry = none ∨ w.title = none ∨ w.name = none →
      ∃ e, createWindow ws w = Except.error e) ∧
    (∀ (ws : List (String × WindowDesc)) (w w2 : WindowDesc) (n : String),
      falsyGeom w.windowGeometry = false → falsyStr w.title = false →
      w.name = some n → n ≠ "" →
      falsyGeom w2.windowGeometry = false → falsyStr w2.title = false →
      w2.name = some n →
      lookupWindow ws n = none →
      ∃ ws1, createWindow ws w = Except.ok (ws1, none) ∧
        createWindow ws1 w2 =
          Except.ok (ws1, some ("Window " ++ n ++ " is already exist.")) ∧
        countName ws1 n = 1) := by
  constructor
  · intro ws w h
    by_cases hg : falsyGeom w.windowGeometry
    · exact ⟨"does not have a valid <windowGeometry>.", by simp [createWindow, hg]⟩
    · by_cases ht : falsyStr w.title
      · exact ⟨"does not have a valid <title>.", by simp [createWindow, hg, ht]⟩
      · rcases h with h | h | h
        · exact absurd (show falsyGeom w.windowGeometry = true by rw [h]; rfl) hg
        · exact absurd (show falsyStr w.title = true by rw [h]; rfl) ht
        · have hfn : falsyStr w.name = true := by rw [h]; rfl
          exact ⟨"does not have a valid <name>.", by simp [createWindow, hg, ht, hfn]⟩
  · intro ws w w2 n hg ht hn hne hg2 ht2 hn2 habs
    have hie : n.isEmpty = false := by
      cases hb : n.isEmpty
      · rfl
      · exact absurd ((String.isEmpty_iff n).mp hb) hne
    have hfn : falsyStr w.name = false := by rw [hn]; exact hie
    have hfn2 : falsyStr w2.name = false := by rw [hn2]; exact hie
    have hget : w.name.getD "" = n := by rw [hn]; rfl
    have hget2 : w2.name.getD "" = n := by rw [hn2]; rfl
    refine ⟨ws ++ [(n, w)], ?_, ?_, ?_⟩
    · simp only [createWindow, hg, ht, hfn, Bool.false_eq_true, if_false, hget, habs]
    · have hlook := lookupWindow_append_self ws n w habs
      simp only [createWindow, hg2, ht2, hfn2, Bool.false_eq_true, if_false, hget2, hlook]
    · have h0 := lookupWindow_none_count ws n habs
      unfold countName at h0 ⊢
      rw [List.filter_append, List.length_append, h0]
      simp

/-- Witness for C5: an empty registry; a window missing its geometry is
rejected; a valid window `"w1"` registers once and the second creation
only reports the notice. -/
theorem createWindow_validation_and_duplicate_witness :
    (∃ e, createWindow [] (WindowDesc.mk none (some "T") (some "w1")) = Except.error e) ∧
    (∃ ws1,
      createWindow [] (WindowDesc.mk (some [0, 0, 100, 100]) (some "T") (some "w1")) =
        Except.ok (ws1, none) ∧
      createWindow ws1 (WindowDesc.mk (some [1, 1, 2, 2]) (some "U") (some "w1")) =
        Except.ok (ws1, some ("Window " ++ "w1" ++ " is already exist.")) ∧
      countName ws1 "w1" = 1) := by
  constructor
  · exact createWindow_validation_and_duplicate.1 [] _ (Or.inl rfl)
  · exact createWindow_validation_and_duplicate.2 []
      (WindowDesc.mk (some [0, 0, 100, 100]) (some "T") (some "w1"))
      (WindowDesc.mk (some [1, 1, 2, 2]) (some "U") (some "w1"))
      "w1" rfl rfl rfl (by decide) rfl rfl rfl rfl

end WindowManager

section AddScreen

/-- A screen object as the two `addScreen` variants observe it:
`hasScreenNameCap` is `hasattr(screen, 'ScreenName')` — capital S, the
attribute MainWindow.py line 98 tests — and `screenName` is the
`screenName` attribute (absent or its value), which the `Screen`
decorator sets and which both variants actually read. -/
structure ScreenObj where
  hasScreenNameCap : Bool
  screenName : Option String
  deriving DecidableEq, Repr

/-- Outcomes of `addScreen` that raise: `namingError` is the explicit
`raise Exception(... does not have ... attribute.)` in either variant;
`attributeError` is the `AttributeError` Python itself raises when
`screen.screenName` is read off an object without that attribute
(MainWindow.py line 99, outside any try). -/
inductive AddScreenError where
  | namingError : AddScreenError
  | attributeError : AddScreenError
  deriving DecidableEq, Repr

/-- `self.screens[name] = screen` / `cls.screens[name] = screen`: Python
dict assignment overwrites an existing binding in place, else appends. -/
def dictInsert : List (String × ScreenObj) → String → ScreenObj → List (String × ScreenObj)
  | [], n, s => [(n, s)]
  | (k, v) :: rest, n, s =>
    if k = n then (k, s) :: rest else (k, v) :: dictInsert rest n s

/-- `addScreen` from Window.py lines 89-107:
`if not hasattr(screen, 'screenName'): raise Exception(...)`, then
`name = screen.screenName; self.screens[name] = screen`. -/
def windowAddScreen (screens : List (String × ScreenObj)) (s : ScreenObj) :
    Except AddScreenError (List (String × ScreenObj)) :=
  match s.screenName with
  | none => Except.error AddScreenError.namingError
  | some n => Except.ok (dictInsert screens n s)

/-- `addScreen` from MainWindow.py lines 81-105:
`if not hasattr(screen, 'ScreenName'): name = screen.screenName;
cls.screens[name] = screen; else: raise Exception(...)`.  Note the test
is on `ScreenName` (capital S) while the read is `screenName`: when the
screen has neither attribute, the read itself raises `AttributeError`;
the deliberate naming `Exception` fires exactly when the screen DOES have
a `ScreenName` attribute. -/
def mainWindowAddScreen (screens : List (String × ScreenObj)) (s : ScreenObj) :
    Except AddScreenError (List (String × ScreenObj)) :=
  if s.hasScreenNameCap = false then
    match s.screenName with
    | some n => Except.ok (dictInsert screens n s)
    | none => Except.error AddScreenError.attributeError
  else Except.error AddScreenError.namingError

/-- C6 (bug in MainWindow.addScreen, contradicting its own docstring
"Raises: Exception: If the screen does not have a 'name' attribute"):
a screen with no name at all makes MainWindow.addScreen raise a bare
`AttributeError` from reading `screen.screenName`, not the naming error;
a screen that exposes a `ScreenName` attribute is rejected with the
naming error even when it also carries a valid `screenName`.  The
Window.py variant behaves as the claim states: nameless screen →
naming error, named screen → registered under its name, no raise. -/
theorem mainWindowAddScreen_inverted_name_check :
    mainWindowAddScreen [] (ScreenObj.mk false none) =
      Except.error AddScreenError.attributeError ∧
    mainWindowAddScreen [] (ScreenObj.mk true (some "home")) =
      Except.error AddScreenError.namingError ∧
    windowAddScreen [] (ScreenObj.mk false none) =
      Except.error AddScreenError.namingError ∧
    windowAddScreen [] (ScreenObj.mk false (some "home")) =
      Except.ok [("home", ScreenObj.mk false (some "home"))] :=
  ⟨rfl, rfl, rfl, rfl⟩

end AddScreen

namespace SessionStorage

variable {V : Type}

/-- The `_storage` dict of useSessionStorage.py, an insertion-ordered
association list of string keys to values. -/
def Store (V : Type) : Type := List (String × V)

/-- `getItem(item)`: `return self._storage.get(item)` — the first (only)
binding of the key, `None` when absent.  Total: never raises. -/
def getItem : Store V → String → Option V
  | [], _ => none
  | (k, v) :: rest, item => if k = item then some v else getItem rest item

/-- `setItem(name, value)`: `self._storage[name] = value` — dict
assignment overwrites an existing binding in place, else appends. -/
def setItem : Store V → String → V → Store V
  | [], name, value => [(name, value)]
  | (k, v) :: rest, name, value =>
    if k = name then (k, value) :: rest else (k, v) :: setItem rest name value

/-- `removeItem(item)`: `self._storage.pop(item, None)` — removes the
binding when present, no-op (and no raise, thanks to the default)
otherwise. -/
def removeItem : Store V → String → Store V
  | [], _ => []
  | (k, v) :: rest, item =>
    if k = item then rest else (k, v) :: removeItem rest item

theorem getItem_setItem (st : Store V) (k : String) (v : V) :
    getItem (setItem st k v) k = some v := by
  induction st with
  | nil => simp [setItem, getItem]
  | cons p rest ih =>
    rw [show p = (p.1, p.2) from rfl]
    by_cases h : p.1 = k
    · simp [setItem, getItem, h]
    · simp [setItem, getItem, h, ih]

theorem removeItem_absent (st : Store V) (k : String)
    (h : getItem st k = none) : removeItem st k = st := by
  induction st with
  | nil => rfl
  | cons p rest ih =>
    rw [show p = (p.1, p.2) from rfl] at h ⊢
    by_cases hk : p.1 = k
    · simp [getItem, hk] at h
    · simp only [getItem, if_neg hk] at h
      simp [removeItem, hk, ih h]

theorem getItem_removeItem (st : Store V) (k : String)
    (hnd : (st.map Prod.fst).Nodup) : getItem (removeItem st k) k = none := by
  induction st with
  | nil => rfl
  | cons p rest ih =>
    rw [show p = (p.1, p.2) from rfl] at hnd ⊢
    simp only [List.map_cons, List.nodup_cons] at hnd
    by_cases hk : p.1 = k
    · subst hk
      simp only [removeItem, if_pos rfl]
      cases hg : getItem rest p.1 with
      | none => exact hg
      | some v =>
        exfalso
        have hmem : p.1 ∈ rest.map Prod.fst := by
          clear ih hnd
          induction rest with
          | nil => simp [getItem] at hg
          | cons q rest2 ih2 =>
            rw [show q = (q.1, q.2) from rfl] at hg
            by_cases hq : q.1 = p.1
            · simp [hq]
            · simp only [getItem, if_neg hq] at hg
              simp [ih2 hg]
        exact hnd.1 hmem
    · simp [removeItem, hk, getItem, ih hnd.2]

/-- C9: on the session store, `getItem` of a key never set — the fresh
store is empty, and `getItem` is a total function (never raises) —
returns the absent sentinel `none`; `getItem` after `removeItem` of the
key (on a store with the dict key-uniqueness invariant) returns `none`;
`removeItem` of an absent key is a no-op; and `setItem k v` makes a
subsequent `getItem k` return `some v`. -/
theorem getItem_absent_sentinel (st : Store V) (k : String) (v : V)
    (hnd : (st.map Prod.fst).Nodup) :
    getItem ([] : Store V) k = none ∧
    getItem (removeItem st k) k = none ∧
    (getItem st k = none → removeItem st k = st) ∧
    getItem (setItem st k v) k = some v :=
  ⟨rfl, getItem_removeItem st k hnd, removeItem_absent st k, getItem_setItem st k v⟩

/-- Witness for C9 at a concrete store `[("a", 1)]` with key `"b"`. -/
theorem getItem_absent_sentinel_witness :
    (([("a", 1)] : Store Nat).map Prod.fst).Nodup ∧
    getItem ([] : Store Nat) "b" = none ∧
    getItem (removeItem ([("a", 1)] : Store Nat) "b") "b" = none ∧
    (getItem ([("a", 1)] : Store Nat) "b" = none →
      removeItem ([("a", 1)] : Store Nat) "b" = [("a", 1)]) ∧
    getItem (setItem ([("a", 1)] : Store Nat) "b" 2) "b" = some 2 := by
  refine ⟨by simp, ?_⟩
  exact getItem_absent_sentinel [("a", 1)] "b" 2 (by simp)

/-- Python heap fragment relevant to `SessionStorage`: `heap` maps object
addresses to dict objects; `classStorageAddr` is the address the CLASS
attribute `SessionStorage._storage = {}` refers to.  In the `@dataclass`,
`_storage = {}` carries no type annotation, so it is not a dataclass
field: the generated `__init__` takes no storage argument and binds
nothing on the instance. -/
structure PyHeap (V : Type) where
  heap : Nat → Store V
  classStorageAddr : Nat

/-- A `SessionStorage` instance: `ownStorage` is the binding of
`_storage` in the instance's own `__dict__`, if any. -/
structure Inst where
  ownStorage : Option Nat
  deriving DecidableEq, Repr

/-- `SessionStorage()`: the dataclass `__init__` binds no `_storage` on
the instance (the attribute is class-level only), so every constructed
instance has no own binding. -/
def init : Inst := Inst.mk none

/-- Python attribute lookup for `self._storage`: the instance `__dict__`
first, falling through to the class attribute. -/
def resolveStorage (p : PyHeap V) (i : Inst) : Nat :=
  match i.ownStorage with
  | some a => a
  | none => p.classStorageAddr

/-- `self._storage[name] = value` through instance `i`: mutates, in
place, the dict object `self._storage` resolves to — no rebinding of the
attribute happens anywhere in the class. -/
def instSet (p : PyHeap V) (i : Inst) (k : String) (v : V) : PyHeap V :=
  { p with heap := fun a =>
      if a = resolveStorage p i then setItem (p.heap a) k v else p.heap a }

/-- `self._storage.get(item)` through instance `i`. -/
def instGet (p : PyHeap V) (i : Inst) (k : String) : Option V :=
  getItem (p.heap (resolveStorage p i)) k

/-- C10: all `SessionStorage` instances alias the single class-level
`_storage` dict: for any two instances `s1`, `s2` as `SessionStorage()`
constructs them (no own `_storage` binding — `s2` need not be the module
singleton `sessionStorage`), `s1.setItem k v` followed by `s2.getItem k`
returns `some v`, from any heap. -/
theorem sessionStorage_shared_across_instances (p : PyHeap V) (s1 s2 : Inst)
    (h1 : s1.ownStorage = none) (h2 : s2.ownStorage = none)
    (k : String) (v : V) :
    instGet (instSet p s1 k v) s2 k = some v := by
  have e1 : resolveStorage p s1 = p.classStorageAddr := by
    simp [resolveStorage, h1]
  have e2 : resolveStorage (instSet p s1 k v) s2 = p.classStorageAddr := by
    simp [resolveStorage, instSet, h2]
  show getItem ((instSet p s1 k v).heap (resolveStorage (instSet p s1 k v) s2)) k
    = some v
  rw [e2]
  show getItem
    (if p.classStorageAddr = resolveStorage p s1 then
      setItem (p.heap p.classStorageAddr) k v
    else p.heap p.classStorageAddr) k = some v
  rw [e1, if_pos rfl]
  exact getItem_setItem _ k v

/-- Witness for C10: empty heap, two freshly constructed instances,
key `"k"`, value `7`. -/
theorem sessionStorage_shared_across_instances_witness :
    (init.ownStorage = none) ∧
    instGet (instSet (PyHeap.mk (fun _ => ([] : Store Nat)) 0) init "k" 7) init "k" =
      some 7 :=
  ⟨rfl, sessionStorage_shared_across_instances
    (PyHeap.mk (fun _ => ([] : Store Nat)) 0) init init rfl rfl "k" 7⟩

end SessionStorage
